import Mathlib

/-!
Shallow embedding of the grade-grid schema, row-level-security policies,
trigger functions and dashboard handlers, together with proofs about them.

The database side is the SQL migration (tables `classes`, `profiles`,
`posts`, `attendance`, the RLS policies, and the `handle_new_user`
trigger).  UUIDs are modelled as `Nat`, dates as `Nat`, nullable columns
as `Option`.  SQL equality on nullable columns is partial: `NULL = NULL`
is not true, which `sqlEqOpt` encodes.
-/

/-- The `user_role` enum. -/
inductive UserRole where
  | student
  | teacher
deriving DecidableEq, Repr

/-- The `attendance_status` enum. -/
inductive AttendanceStatus where
  | present
  | absent
deriving DecidableEq, Repr

/-- A row of `public.classes`. -/
structure ClassRow where
  id : Nat
  name : String
deriving DecidableEq, Repr

/-- A row of `public.profiles`; `class_id` is nullable. -/
structure ProfileRow where
  id : Nat
  name : String
  role : UserRole
  class_id : Option Nat
deriving DecidableEq, Repr

/-- A row of `public.posts`; `teacher_id` and `class_id` are NOT NULL. -/
structure PostRow where
  id : Nat
  teacher_id : Nat
  class_id : Nat
  title : String
  content : String
deriving DecidableEq, Repr

/-- A row of `public.attendance`; all columns NOT NULL. -/
structure AttendanceRow where
  id : Nat
  student_id : Nat
  date : Nat
  status : AttendanceStatus
deriving DecidableEq, Repr

/-- The four application tables. -/
structure DB where
  classes : List ClassRow
  profiles : List ProfileRow
  posts : List PostRow
  attendance : List AttendanceRow
deriving DecidableEq, Repr

/-- SQL equality on a nullable column: true only when both sides are
non-NULL and equal (`NULL = anything` is not true). -/
def sqlEqOpt (a b : Option Nat) : Bool :=
  match a, b with
  | some x, some y => x == y
  | _, _ => false

/-- The caller's profile row, if any: `profiles` is keyed by `id`. -/
def lookupProfile (db : DB) (uid : Nat) : Option ProfileRow :=
  db.profiles.find? (fun p => p.id == uid)

/-- Policy "Users can view their own profile": `auth.uid() = id`. -/
def profilesSelectPolicy (uid : Nat) (p : ProfileRow) : Bool :=
  uid == p.id

/-- Policy "Users can update their own profile": `auth.uid() = id`. -/
def profilesUpdatePolicy (uid : Nat) (p : ProfileRow) : Bool :=
  uid == p.id

/-- Policy "Users can view their class":
`id IN (SELECT class_id FROM profiles WHERE id = auth.uid())`.
A NULL `class_id` in the subquery matches nothing. -/
def classesSelectPolicy (db : DB) (uid : Nat) (c : ClassRow) : Bool :=
  db.profiles.any (fun p => p.id == uid && p.class_id == some c.id)

/-- Policy "Students can view posts from their class":
`class_id IN (SELECT class_id FROM profiles WHERE id = auth.uid())`. -/
def postsSelectPolicy (db : DB) (uid : Nat) (r : PostRow) : Bool :=
  db.profiles.any (fun p => p.id == uid && p.class_id == some r.class_id)

/-- Policy "Teachers can create posts for their class" (WITH CHECK):
`teacher_id = auth.uid() AND class_id IN
 (SELECT class_id FROM profiles WHERE id = auth.uid() AND role = 'teacher')`. -/
def postsInsertPolicy (db : DB) (uid : Nat) (new : PostRow) : Bool :=
  new.teacher_id == uid &&
    db.profiles.any (fun p =>
      p.id == uid && (p.role == UserRole.teacher && p.class_id == some new.class_id))

/-- Policy "Teachers can update their own posts" (USING):
`teacher_id = auth.uid()`, evaluated on the existing row. -/
def postsUpdateUsing (uid : Nat) (old : PostRow) : Bool :=
  old.teacher_id == uid

/-- With no explicit WITH CHECK, Postgres re-uses the USING expression on
the updated row: `teacher_id = auth.uid()`. -/
def postsUpdateCheck (uid : Nat) (new : PostRow) : Bool :=
  new.teacher_id == uid

/-- Policy "Teachers can delete their own posts": `teacher_id = auth.uid()`. -/
def postsDeletePolicy (uid : Nat) (r : PostRow) : Bool :=
  r.teacher_id == uid

/-- The self-join subquery shared by the three teacher attendance policies:
`student_id IN (SELECT p1.id FROM profiles p1 JOIN profiles p2
 ON p1.class_id = p2.class_id WHERE p2.id = auth.uid() AND p2.role = 'teacher')`.
The join condition uses SQL equality, so NULL `class_id` never matches. -/
def teacherClassmate (db : DB) (uid sid : Nat) : Bool :=
  db.profiles.any (fun p1 =>
    p1.id == sid &&
      db.profiles.any (fun p2 =>
        p2.id == uid &&
          (p2.role == UserRole.teacher && sqlEqOpt p1.class_id p2.class_id)))

/-- Policy "Students can view their own attendance": `student_id = auth.uid()`. -/
def attendanceStudentSelect (uid : Nat) (a : AttendanceRow) : Bool :=
  a.student_id == uid

/-- Policy "Teachers can view attendance for their class students". -/
def attendanceTeacherSelect (db : DB) (uid : Nat) (a : AttendanceRow) : Bool :=
  teacherClassmate db uid a.student_id

/-- Overall SELECT visibility of an attendance row: RLS policies for the
same command are OR-ed. -/
def attendanceSelectPolicy (db : DB) (uid : Nat) (a : AttendanceRow) : Bool :=
  attendanceStudentSelect uid a || attendanceTeacherSelect db uid a

/-- Policy "Teachers can mark attendance for their class students" (WITH CHECK). -/
def attendanceInsertPolicy (db : DB) (uid : Nat) (a : AttendanceRow) : Bool :=
  teacherClassmate db uid a.student_id

/-- Policy "Teachers can update attendance for their class students" (USING). -/
def attendanceUpdatePolicy (db : DB) (uid : Nat) (a : AttendanceRow) : Bool :=
  teacherClassmate db uid a.student_id

/-- On a profiles list whose `id` column is a primary key (no duplicates),
an existential filter anchored at `id = uid` evaluates exactly at the row
`find?` returns for `uid`. -/
theorem any_lookup_eq (l : List ProfileRow) (hnd : (l.map ProfileRow.id).Nodup)
    (uid : Nat) (tp : ProfileRow) (hfind : l.find? (fun p => p.id == uid) = some tp)
    (f : ProfileRow → Bool) :
    l.any (fun p => p.id == uid && f p) = f tp := by
  have hmem : tp ∈ l := List.mem_of_find?_eq_some hfind
  have hid : tp.id = uid := by simpa using List.find?_some hfind
  cases hf : f tp with
  | false =>
    rw [List.any_eq_false]
    intro x hx
    simp only [Bool.and_eq_true, beq_iff_eq, not_and]
    intro hxid
    have hx_eq : x = tp := List.inj_on_of_nodup_map hnd hx hmem (by rw [hxid, hid])
    rw [hx_eq, hf]
    simp
  | true =>
    rw [List.any_eq_true]
    exact ⟨tp, hmem, by simp [hid, hf]⟩

/-- A list without duplicates all of whose members are one value has at
most one member. -/
theorem length_le_one_of_nodup_const (l : List Nat) (c : Nat) (hnd : l.Nodup)
    (h : ∀ x ∈ l, x = c) : l.length ≤ 1 := by
  match l with
  | [] => simp
  | [a] => simp
  | a :: b :: t =>
    exfalso
    have ha : a = c := h a (by simp)
    have hb : b = c := h b (by simp)
    rcases List.nodup_cons.mp hnd with ⟨hna, _⟩
    exact hna (by rw [ha, ← hb]; exact List.mem_cons_self b t)

/-- `sqlEqOpt` succeeds exactly on a shared non-NULL value. -/
theorem sqlEqOpt_eq_true_iff (a b : Option Nat) :
    sqlEqOpt a b = true ↔ ∃ c, a = some c ∧ b = some c := by
  cases a with
  | none => simp [sqlEqOpt]
  | some x =>
    cases b with
    | none => simp [sqlEqOpt]
    | some y =>
      constructor
      · intro h
        have hxy : x = y := by simpa [sqlEqOpt] using h
        exact ⟨x, rfl, by rw [hxy]⟩
      · rintro ⟨c, hc1, hc2⟩
        cases hc1
        have hyx : y = x := Option.some.inj hc2
        simp [sqlEqOpt, hyx]

/-- Claim C2: a post INSERT is permitted iff the caller is the named
`teacher_id`, the caller's profile has role `teacher`, and that profile's
`class_id` equals the post's `class_id`; in particular an INSERT naming a
different `teacher_id` is rejected whatever the `class_id`. -/
theorem posts_insert_policy_characterisation (db : DB) (uid : Nat) (new : PostRow)
    (hnd : (db.profiles.map ProfileRow.id).Nodup)
    (tp : ProfileRow) (hp : lookupProfile db uid = some tp) :
    (postsInsertPolicy db uid new = true ↔
      new.teacher_id = uid ∧ tp.role = UserRole.teacher ∧
        tp.class_id = some new.class_id) ∧
    (new.teacher_id ≠ uid → postsInsertPolicy db uid new = false) := by
  have h := any_lookup_eq db.profiles hnd uid tp hp
    (fun p => p.role == UserRole.teacher && p.class_id == some new.class_id)
  constructor
  · simp only [postsInsertPolicy, h, Bool.and_eq_true, beq_iff_eq]
  · intro hne
    simp only [postsInsertPolicy, h]
    simp [hne]

/-- Concrete instance of `posts_insert_policy_characterisation`. -/
def dbC2 : DB :=
  { classes := [⟨10, "Class A"⟩]
    profiles := [⟨1, "T", UserRole.teacher, some 10⟩]
    posts := []
    attendance := [] }

/-- Witness for claim C2 at a one-teacher database. -/
theorem posts_insert_policy_characterisation_witness :
    (postsInsertPolicy dbC2 1 ⟨100, 1, 10, "t", "c"⟩ = true ↔
      (⟨100, 1, 10, "t", "c"⟩ : PostRow).teacher_id = 1 ∧
        (⟨1, "T", UserRole.teacher, some 10⟩ : ProfileRow).role = UserRole.teacher ∧
        (⟨1, "T", UserRole.teacher, some 10⟩ : ProfileRow).class_id =
          some (⟨100, 1, 10, "t", "c"⟩ : PostRow).class_id) ∧
    ((⟨100, 1, 10, "t", "c"⟩ : PostRow).teacher_id ≠ 1 →
      postsInsertPolicy dbC2 1 ⟨100, 1, 10, "t", "c"⟩ = false) :=
  posts_insert_policy_characterisation dbC2 1 ⟨100, 1, 10, "t", "c"⟩ (by decide)
    ⟨1, "T", UserRole.teacher, some 10⟩ (by rfl)

/-- Claim C8: a class row is visible iff it is the class of the caller's
own profile, and consequently at most one class row is visible. -/
theorem classes_select_policy_characterisation (db : DB) (uid : Nat)
    (hnd : (db.profiles.map ProfileRow.id).Nodup)
    (hcnd : (db.classes.map ClassRow.id).Nodup)
    (tp : ProfileRow) (hp : lookupProfile db uid = some tp) :
    (∀ c : ClassRow, classesSelectPolicy db uid c = true ↔ tp.class_id = some c.id) ∧
    (db.classes.filter (fun c => classesSelectPolicy db uid c)).length ≤ 1 := by
  have hpol : ∀ c : ClassRow, classesSelectPolicy db uid c = (tp.class_id == some c.id) :=
    fun c => any_lookup_eq db.profiles hnd uid tp hp (fun p => p.class_id == some c.id)
  constructor
  · intro c
    rw [hpol c]
    simp
  · have hfc : db.classes.filter (fun c => classesSelectPolicy db uid c) =
        db.classes.filter (fun c => tp.class_id == some c.id) :=
      List.filter_congr (fun c _ => hpol c)
    rw [hfc]
    cases hcase : tp.class_id with
    | none => simp
    | some v =>
      have hsub : ((db.classes.filter (fun c => (some v : Option Nat) == some c.id)).map
          ClassRow.id).Sublist (db.classes.map ClassRow.id) :=
        (List.filter_sublist db.classes).map ClassRow.id
      have hnds : ((db.classes.filter (fun c => (some v : Option Nat) == some c.id)).map
          ClassRow.id).Nodup := hcnd.sublist hsub
      have hconst : ∀ x ∈ (db.classes.filter (fun c => (some v : Option Nat) == some c.id)).map
          ClassRow.id, x = v := by
        intro x hx
        rcases List.mem_map.mp hx with ⟨c, hc, hcx⟩
        rcases List.mem_filter.mp hc with ⟨_, hcp⟩
        simp at hcp
        rw [← hcx, ← hcp]
      have hlen := length_le_one_of_nodup_const _ v hnds hconst
      simpa using hlen

/-- Concrete instance for `classes_select_policy_characterisation`. -/
def dbC8 : DB :=
  { classes := [⟨10, "Class A"⟩, ⟨20, "Class B"⟩, ⟨30, "Class C"⟩]
    profiles := [⟨1, "S", UserRole.student, some 20⟩]
    posts := []
    attendance := [] }

/-- Witness for claim C8 at a three-class database. -/
theorem classes_select_policy_characterisation_witness :
    (∀ c : ClassRow, classesSelectPolicy dbC8 1 c = true ↔
      (⟨1, "S", UserRole.student, some 20⟩ : ProfileRow).class_id = some c.id) ∧
    (dbC8.classes.filter (fun c => classesSelectPolicy dbC8 1 c)).length ≤ 1 :=
  classes_select_policy_characterisation dbC8 1 (by decide) (by decide)
    ⟨1, "S", UserRole.student, some 20⟩ (by rfl)

/-- Claim C4: every attendance row visible to a caller whose profile has
role `student` carries that caller's own identity as `student_id`. -/
theorem student_attendance_select_own_rows (db : DB) (uid : Nat)
    (hnd : (db.profiles.map ProfileRow.id).Nodup)
    (tp : ProfileRow) (hp : lookupProfile db uid = some tp)
    (hrole : tp.role = UserRole.student) (a : AttendanceRow)
    (hvis : attendanceSelectPolicy db uid a = true) :
    a.student_id = uid := by
  have hTC : ∀ sid, teacherClassmate db uid sid = false := by
    intro sid
    rw [teacherClassmate, List.any_eq_false]
    intro p1 hp1
    have hinner := any_lookup_eq db.profiles hnd uid tp hp
      (fun p2 => p2.role == UserRole.teacher && sqlEqOpt p1.class_id p2.class_id)
    simp [hinner, hrole]
  rw [attendanceSelectPolicy, attendanceStudentSelect, attendanceTeacherSelect] at hvis
  simp [hTC] at hvis
  exact hvis

/-- Teacher and student both without class affiliation, plus one
attendance row for the student. -/
def dbC1 : DB :=
  { classes := []
    profiles := [⟨1, "T", UserRole.teacher, none⟩, ⟨2, "S", UserRole.student, none⟩]
    posts := []
    attendance := [⟨5, 2, 0, AttendanceStatus.present⟩] }

/-- Claim C1 fails as stated: caller 1 has role `teacher`, the profile of
the row's `student_id` has the same `class_id` as the caller's profile
(both are NULL), yet the row is neither visible nor writable, because the
policy's self-join uses SQL equality and `NULL = NULL` does not match. -/
theorem attendance_null_class_counterexample :
    lookupProfile dbC1 1 = some ⟨1, "T", UserRole.teacher, none⟩ ∧
    lookupProfile dbC1 2 = some ⟨2, "S", UserRole.student, none⟩ ∧
    (⟨2, "S", UserRole.student, none⟩ : ProfileRow).class_id =
      (⟨1, "T", UserRole.teacher, none⟩ : ProfileRow).class_id ∧
    attendanceSelectPolicy dbC1 1 ⟨5, 2, 0, AttendanceStatus.present⟩ = false ∧
    attendanceInsertPolicy dbC1 1 ⟨5, 2, 0, AttendanceStatus.present⟩ = false ∧
    attendanceUpdatePolicy dbC1 1 ⟨5, 2, 0, AttendanceStatus.present⟩ = false :=
  ⟨rfl, rfl, rfl, rfl, rfl, rfl⟩

/-- Claim C1 (amended): for a caller whose profile has role `teacher`, an
attendance row is SELECT-visible iff it is the caller's own row or the
row's student profile and the caller's profile share a non-NULL
`class_id`; it is INSERT/UPDATE-writable iff they share a non-NULL
`class_id`; a caller whose profile role is not `teacher` gets nothing
through the teacher policies. -/
theorem attendance_teacher_access_characterisation (db : DB) (uid : Nat)
    (hnd : (db.profiles.map ProfileRow.id).Nodup)
    (tp : ProfileRow) (hp : lookupProfile db uid = some tp)
    (a : AttendanceRow) (sp : ProfileRow)
    (hs : lookupProfile db a.student_id = some sp) :
    (tp.role = UserRole.teacher →
      ((attendanceSelectPolicy db uid a = true ↔
          a.student_id = uid ∨ ∃ c, sp.class_id = some c ∧ tp.class_id = some c) ∧
        (attendanceInsertPolicy db uid a = true ↔
          ∃ c, sp.class_id = some c ∧ tp.class_id = some c) ∧
        attendanceUpdatePolicy db uid a = attendanceInsertPolicy db uid a)) ∧
    (tp.role ≠ UserRole.teacher →
      attendanceTeacherSelect db uid a = false ∧
      attendanceInsertPolicy db uid a = false ∧
      attendanceUpdatePolicy db uid a = false) := by
  have hout := any_lookup_eq db.profiles hnd a.student_id sp hs
    (fun p1 => db.profiles.any (fun p2 =>
      p2.id == uid && (p2.role == UserRole.teacher && sqlEqOpt p1.class_id p2.class_id)))
  have hin := any_lookup_eq db.profiles hnd uid tp hp
    (fun p2 => p2.role == UserRole.teacher && sqlEqOpt sp.class_id p2.class_id)
  have hTC : teacherClassmate db uid a.student_id =
      (tp.role == UserRole.teacher && sqlEqOpt sp.class_id tp.class_id) := by
    simp only [teacherClassmate]
    rw [hout, hin]
  constructor
  · intro hteacher
    refine ⟨?_, ?_, rfl⟩
    · rw [attendanceSelectPolicy, attendanceStudentSelect, attendanceTeacherSelect, hTC,
        hteacher]
      simp [sqlEqOpt_eq_true_iff]
    · rw [attendanceInsertPolicy, hTC, hteacher]
      simp [sqlEqOpt_eq_true_iff]
  · intro hne
    have hrf : (tp.role == UserRole.teacher) = false := by
      simp [hne]
    rw [attendanceTeacherSelect, attendanceInsertPolicy, attendanceUpdatePolicy, hTC, hrf]
    simp

/-- An INSERT on `posts` under RLS: the new row must pass the WITH CHECK
predicate, otherwise the write is rejected. -/
def insertPost (db : DB) (uid : Nat) (new : PostRow) : Except Unit DB :=
  if postsInsertPolicy db uid new then
    Except.ok { db with posts := db.posts ++ [new] }
  else Except.error ()

/-- A single-row UPDATE on `posts` under RLS: the existing row must pass
the USING predicate and the updated row the (defaulted) WITH CHECK
predicate. -/
def updatePost (db : DB) (uid : Nat) (old new : PostRow) : Except Unit DB :=
  if db.posts.contains old && (postsUpdateUsing uid old && postsUpdateCheck uid new) then
    Except.ok { db with posts := db.posts.map (fun r => if r == old then new else r) }
  else Except.error ()

/-- A DELETE on `posts` under RLS: of the rows matching the statement's
condition, only those passing the USING predicate are removed. -/
def deletePosts (db : DB) (uid : Nat) (cond : PostRow → Bool) : DB :=
  { db with posts := db.posts.filter (fun r => !(cond r && postsDeletePolicy uid r)) }

/-- The spec's post invariant: the authoring teacher's profile belongs to
the class the post targets. -/
def postAuthorInClass (db : DB) (r : PostRow) : Bool :=
  db.profiles.any (fun p => p.id == r.teacher_id && p.class_id == some r.class_id)

/-- The post invariant over the whole table. -/
def postsClassInvariant (db : DB) : Bool :=
  db.posts.all (fun r => postAuthorInClass db r)

/-- Teacher 1 belongs to class 10 and has a post in class 10. -/
def dbC5 : DB :=
  { classes := [⟨10, "Class A"⟩, ⟨20, "Class B"⟩]
    profiles := [⟨1, "T", UserRole.teacher, some 10⟩]
    posts := [⟨100, 1, 10, "t", "c"⟩]
    attendance := [] }

/-- `dbC5` after the author moves the post to class 20. -/
def dbC5after : DB :=
  { classes := [⟨10, "Class A"⟩, ⟨20, "Class B"⟩]
    profiles := [⟨1, "T", UserRole.teacher, some 10⟩]
    posts := [⟨100, 1, 20, "t", "c"⟩]
    attendance := [] }

/-- Claim C5 fails as stated: the UPDATE policy checks only
`teacher_id = auth.uid()`, so teacher 1 (class 10) may retarget their own
post to class 20, and the author-in-class invariant is broken by a
permitted UPDATE. -/
theorem posts_update_breaks_author_class_invariant :
    postsClassInvariant dbC5 = true ∧
    updatePost dbC5 1 ⟨100, 1, 10, "t", "c"⟩ ⟨100, 1, 20, "t", "c"⟩ = Except.ok dbC5after ∧
    postsClassInvariant dbC5after = false :=
  ⟨rfl, rfl, rfl⟩

/-- Claim C5 (amended): the author-in-class invariant is established by
every permitted INSERT and preserved by every permitted DELETE on posts;
a permitted UPDATE may break it, since its predicate re-checks only the
author identity. -/
theorem posts_invariant_insert_delete_preserved (db : DB) (uid : Nat)
    (new : PostRow) (db2 : DB) (cond : PostRow → Bool)
    (hinv : postsClassInvariant db = true)
    (hok : insertPost db uid new = Except.ok db2) :
    postsClassInvariant db2 = true ∧
    postsClassInvariant (deletePosts db uid cond) = true := by
  constructor
  · rw [insertPost] at hok
    rcases hpol : postsInsertPolicy db uid new with _ | _
    · rw [hpol] at hok
      simp at hok
    · rw [hpol] at hok
      simp at hok
      rw [← hok]
      rw [postsClassInvariant, List.all_eq_true] at hinv ⊢
      intro r hr
      rcases List.mem_append.mp hr with hold | hnew
      · exact hinv r hold
      · have hr_eq : r = new := by simpa using hnew
        subst hr_eq
        rw [postsInsertPolicy, Bool.and_eq_true] at hpol
        rcases hpol with ⟨hteq, hany⟩
        rcases List.any_eq_true.mp hany with ⟨p, hpmem, hpp⟩
        simp only [Bool.and_eq_true, beq_iff_eq] at hteq hpp
        rw [postAuthorInClass, List.any_eq_true]
        exact ⟨p, hpmem, by simp [hpp.1, hteq, hpp.2.2]⟩
  · rw [postsClassInvariant, List.all_eq_true] at hinv ⊢
    intro r hr
    have hr_mem : r ∈ db.posts := List.mem_of_mem_filter hr
    exact hinv r hr_mem

/-- Witness for the amended claim C5 at `dbC5`. -/
theorem posts_invariant_insert_delete_preserved_witness :
    postsClassInvariant
        { dbC5 with posts := dbC5.posts ++ [⟨101, 1, 10, "x", "y"⟩] } = true ∧
    postsClassInvariant (deletePosts dbC5 1 (fun _ => true)) = true :=
  posts_invariant_insert_delete_preserved dbC5 1 ⟨101, 1, 10, "x", "y"⟩
    { dbC5 with posts := dbC5.posts ++ [⟨101, 1, 10, "x", "y"⟩] } (fun _ => true)
    (by rfl) (by rfl)

/-- Whether any row of `posts` or `attendance` references the profile:
both foreign keys are declared without a cascade action. -/
def profileReferenced (db : DB) (pid : Nat) : Bool :=
  db.posts.any (fun r => r.teacher_id == pid) ||
    db.attendance.any (fun a => a.student_id == pid)

/-- Deleting an `auth.users` row: the profile's foreign key is ON DELETE
CASCADE, so the profile row is deleted too; but `posts.teacher_id` and
`attendance.student_id` reference `profiles` with the default NO ACTION,
so if the profile is still referenced the whole delete is rejected. -/
def deleteAuthUser (db : DB) (uid : Nat) : Except Unit DB :=
  if db.profiles.any (fun p => p.id == uid) && profileReferenced db uid then
    Except.error ()
  else
    Except.ok { db with profiles := db.profiles.filter (fun p => p.id != uid) }

/-- One student with class 10 and one attendance row for that student. -/
def dbC6 : DB :=
  { classes := [⟨10, "Class A"⟩]
    profiles := [⟨2, "S", UserRole.student, some 10⟩]
    posts := []
    attendance := [⟨7, 2, 0, AttendanceStatus.present⟩] }

/-- Claim C6 fails as stated: student 2's profile is referenced by an
attendance row, so deleting auth identity 2 is rejected outright (NO
ACTION on `attendance.student_id`) instead of removing the profile row. -/
theorem delete_auth_user_restricted_counterexample :
    lookupProfile dbC6 2 = some ⟨2, "S", UserRole.student, some 10⟩ ∧
    deleteAuthUser dbC6 2 = Except.error () :=
  ⟨rfl, rfl⟩

/-- Claim C6 (amended): when no post or attendance row references the
identity's profile, deleting the auth identity succeeds, removes exactly
the profile rows carrying that identity, and leaves classes, posts and
attendance unchanged. -/
theorem delete_auth_user_unreferenced_frame (db : DB) (uid : Nat)
    (href : profileReferenced db uid = false) :
    ∃ db2, deleteAuthUser db uid = Except.ok db2 ∧
      db2.profiles = db.profiles.filter (fun p => p.id != uid) ∧
      db2.classes = db.classes ∧ db2.posts = db.posts ∧
      db2.attendance = db.attendance := by
  refine ⟨{ db with profiles := db.profiles.filter (fun p => p.id != uid) },
    ?_, rfl, rfl, rfl, rfl⟩
  rw [deleteAuthUser, href]
  simp

/-- Student 2 with no posts and no attendance rows. -/
def dbC6b : DB :=
  { classes := [⟨10, "Class A"⟩]
    profiles := [⟨2, "S", UserRole.student, some 10⟩, ⟨3, "R", UserRole.student, some 10⟩]
    posts := []
    attendance := [] }

/-- Witness for the amended claim C6 at `dbC6b`. -/
theorem delete_auth_user_unreferenced_frame_witness :
    ∃ db2, deleteAuthUser dbC6b 2 = Except.ok db2 ∧
      db2.profiles = dbC6b.profiles.filter (fun p => p.id != 2) ∧
      db2.classes = dbC6b.classes ∧ db2.posts = dbC6b.posts ∧
      db2.attendance = dbC6b.attendance :=
  delete_auth_user_unreferenced_frame dbC6b 2 (by rfl)

/-- The `(raw_user_meta_data ->> 'role')::user_role` cast: succeeds on the
two enum labels, errors on anything else. -/
def castUserRole (s : String) : Except Unit UserRole :=
  if s == "student" then Except.ok UserRole.student
  else if s == "teacher" then Except.ok UserRole.teacher
  else Except.error ()

/-- `COALESCE((raw_user_meta_data ->> 'role')::user_role, 'student')`:
a NULL casts to NULL and the COALESCE falls back to `student`. -/
def metaRoleValue : Option String → Except Unit UserRole
  | none => Except.ok UserRole.student
  | some s => castUserRole s

/-- A row of `auth.users` as `handle_new_user` reads it. -/
structure AuthUser where
  id : Nat
  email : String
  metaName : Option String
  metaRole : Option String
deriving DecidableEq, Repr

/-- The `handle_new_user` trigger body: one INSERT into `profiles` with
`id = NEW.id`, `name = COALESCE(meta name, NEW.email)`,
`role = COALESCE(cast of meta role, 'student')`; `class_id` is not set.
The insert fails on a primary-key conflict. -/
def handle_new_user (db : DB) (u : AuthUser) : Except Unit DB :=
  match metaRoleValue u.metaRole with
  | Except.error e => Except.error e
  | Except.ok r =>
      if db.profiles.any (fun p => p.id == u.id) then Except.error ()
      else
        Except.ok { db with profiles :=
          db.profiles ++ [⟨u.id, u.metaName.getD u.email, r, none⟩] }

/-- Claim C7: for a fresh identity carrying no role metadata the trigger
appends exactly one profile row, with role `student`; and with no name
metadata the row's name is the identity's email. -/
theorem handle_new_user_defaults (db : DB) (u : AuthUser)
    (hfresh : db.profiles.any (fun p => p.id == u.id) = false)
    (hrole : u.metaRole = none) :
    handle_new_user db u = Except.ok { db with profiles :=
      db.profiles ++ [⟨u.id, u.metaName.getD u.email, UserRole.student, none⟩] } ∧
    (u.metaName = none → u.metaName.getD u.email = u.email) := by
  constructor
  · rw [handle_new_user, hrole]
    simp [metaRoleValue, hfresh]
  · intro hname
    rw [hname]
    rfl

/-- Witness for claim C7: a fresh identity with empty metadata. -/
theorem handle_new_user_defaults_witness :
    handle_new_user ⟨[], [], [], []⟩ ⟨3, "s@example.com", none, none⟩ =
      Except.ok { (⟨[], [], [], []⟩ : DB) with profiles :=
        [] ++ [⟨3, (none : Option String).getD "s@example.com", UserRole.student, none⟩] } ∧
    ((none : Option String) = none →
      (none : Option String).getD "s@example.com" = "s@example.com") :=
  handle_new_user_defaults ⟨[], [], [], []⟩ ⟨3, "s@example.com", none, none⟩
    (by rfl) (by rfl)

/-- Teacher 1 and student 2 share class 10; one attendance row for 2. -/
def dbC1b : DB :=
  { classes := [⟨10, "Class A"⟩]
    profiles := [⟨1, "T", UserRole.teacher, some 10⟩, ⟨2, "S", UserRole.student, some 10⟩]
    posts := []
    attendance := [⟨5, 2, 0, AttendanceStatus.present⟩] }

/-- Witness for the amended claim C1 at `dbC1b`. -/
theorem attendance_teacher_access_characterisation_witness :
    ((⟨1, "T", UserRole.teacher, some 10⟩ : ProfileRow).role = UserRole.teacher →
      ((attendanceSelectPolicy dbC1b 1 ⟨5, 2, 0, AttendanceStatus.present⟩ = true ↔
          (⟨5, 2, 0, AttendanceStatus.present⟩ : AttendanceRow).student_id = 1 ∨
            ∃ c, (⟨2, "S", UserRole.student, some 10⟩ : ProfileRow).class_id = some c ∧
              (⟨1, "T", UserRole.teacher, some 10⟩ : ProfileRow).class_id = some c) ∧
        (attendanceInsertPolicy dbC1b 1 ⟨5, 2, 0, AttendanceStatus.present⟩ = true ↔
          ∃ c, (⟨2, "S", UserRole.student, some 10⟩ : ProfileRow).class_id = some c ∧
            (⟨1, "T", UserRole.teacher, some 10⟩ : ProfileRow).class_id = some c) ∧
        attendanceUpdatePolicy dbC1b 1 ⟨5, 2, 0, AttendanceStatus.present⟩ =
          attendanceInsertPolicy dbC1b 1 ⟨5, 2, 0, AttendanceStatus.present⟩)) ∧
    ((⟨1, "T", UserRole.teacher, some 10⟩ : ProfileRow).role ≠ UserRole.teacher →
      attendanceTeacherSelect dbC1b 1 ⟨5, 2, 0, AttendanceStatus.present⟩ = false ∧
      attendanceInsertPolicy dbC1b 1 ⟨5, 2, 0, AttendanceStatus.present⟩ = false ∧
      attendanceUpdatePolicy dbC1b 1 ⟨5, 2, 0, AttendanceStatus.present⟩ = false) :=
  attendance_teacher_access_characterisation dbC1b 1 (by decide)
    ⟨1, "T", UserRole.teacher, some 10⟩ (by rfl) ⟨5, 2, 0, AttendanceStatus.present⟩
    ⟨2, "S", UserRole.student, some 10⟩ (by rfl)

/-- Student 2 alone in class 10, with their own attendance row. -/
def dbC4 : DB :=
  { classes := [⟨10, "Class A"⟩]
    profiles := [⟨2, "S", UserRole.student, some 10⟩]
    posts := []
    attendance := [⟨5, 2, 0, AttendanceStatus.present⟩] }

/-- Witness for claim C4 at `dbC4`. -/
theorem student_attendance_select_own_rows_witness :
    (⟨5, 2, 0, AttendanceStatus.present⟩ : AttendanceRow).student_id = 2 :=
  student_attendance_select_own_rows dbC4 2 (by decide)
    ⟨2, "S", UserRole.student, some 10⟩ (by rfl) (by rfl)
    ⟨5, 2, 0, AttendanceStatus.present⟩ (by rfl)

/-- The uniqueness key of `attendance`: `UNIQUE(student_id, date)`. -/
def attendanceKey (s d : Nat) (r : AttendanceRow) : Bool :=
  r.student_id == s && r.date == d

/-- The client's `upsert` with `onConflict: student_id,date`: if a row for
the pair exists its status is overwritten in place, otherwise a fresh row
is inserted. -/
def upsertAttendance (rows : List AttendanceRow) (newId s d : Nat)
    (st : AttendanceStatus) : List AttendanceRow :=
  if rows.any (attendanceKey s d) then
    rows.map (fun r => if attendanceKey s d r then { r with status := st } else r)
  else rows ++ [⟨newId, s, d, st⟩]

/-- A sequence of attendance marks for one `(student, date)` pair; each
mark supplies the fresh id its insert branch would use, and the status. -/
def markSequence (rows : List AttendanceRow) (s d : Nat)
    (marks : List (Nat × AttendanceStatus)) : List AttendanceRow :=
  marks.foldl (fun acc m => upsertAttendance acc m.1 s d m.2) rows

/-- Filtering commutes with a map that leaves the filter predicate
unchanged. -/
theorem filter_map_preserve (p : AttendanceRow → Bool)
    (f : AttendanceRow → AttendanceRow) (h : ∀ r, p (f r) = p r)
    (l : List AttendanceRow) : (l.map f).filter p = (l.filter p).map f := by
  induction l with
  | nil => rfl
  | cons a t ih =>
    simp only [List.map_cons, List.filter_cons, h a]
    cases p a <;> simp [ih]

/-- One upsert leaves exactly one row for its key, carrying its status,
provided the table held at most one row for that key before. -/
theorem upsert_filter_key (rows : List AttendanceRow) (newId s d : Nat)
    (st : AttendanceStatus)
    (hle : (rows.filter (attendanceKey s d)).length ≤ 1) :
    ∃ i, (upsertAttendance rows newId s d st).filter (attendanceKey s d) =
      [⟨i, s, d, st⟩] := by
  rw [upsertAttendance]
  cases hany : rows.any (attendanceKey s d) with
  | false =>
    simp only [Bool.false_eq_true, if_false]
    have hempty : rows.filter (attendanceKey s d) = [] :=
      List.filter_eq_nil_iff.mpr (List.any_eq_false.mp hany)
    rw [List.filter_append, hempty]
    refine ⟨newId, ?_⟩
    simp [attendanceKey]
  | true =>
    simp only [if_true]
    have hup : ∀ r : AttendanceRow,
        attendanceKey s d { r with status := st } = attendanceKey s d r :=
      fun r => rfl
    have hpres : ∀ r, attendanceKey s d
        (if attendanceKey s d r then { r with status := st } else r) =
          attendanceKey s d r := by
      intro r
      by_cases hk : attendanceKey s d r = true
      · rw [if_pos hk, hup]
      · rw [if_neg hk]
    rw [filter_map_preserve _ _ hpres]
    rcases List.any_eq_true.mp hany with ⟨x, hx, hxk⟩
    have hx_mem : x ∈ rows.filter (attendanceKey s d) := List.mem_filter.mpr ⟨hx, hxk⟩
    have hpos : 1 ≤ (rows.filter (attendanceKey s d)).length :=
      List.length_pos.mpr (List.ne_nil_of_mem hx_mem)
    have hone : (rows.filter (attendanceKey s d)).length = 1 := le_antisymm hle hpos
    rcases List.length_eq_one.mp hone with ⟨r0, hr0⟩
    have hr0_mem : r0 ∈ rows.filter (attendanceKey s d) := by
      rw [hr0]; exact List.mem_cons_self r0 []
    have hr0_key : attendanceKey s d r0 = true := (List.mem_filter.mp hr0_mem).2
    have hr0_split : r0.student_id = s ∧ r0.date = d := by
      have h := hr0_key
      simp [attendanceKey] at h
      exact h
    have hs_eq : r0.student_id = s := hr0_split.1
    have hd_eq : r0.date = d := hr0_split.2
    refine ⟨r0.id, ?_⟩
    rw [hr0]
    simp only [List.map_cons, List.map_nil, hr0_key, if_true]
    rw [show ({ r0 with status := st } : AttendanceRow) = ⟨r0.id, s, d, st⟩ from by
      cases r0; simp_all]

/-- Claim C3: after any non-empty sequence of marks for one
`(student, date)` pair, in a table that held at most one row for that pair,
exactly one row for the pair remains and its status is the last mark's. -/
theorem attendance_upsert_last_write_wins (rows : List AttendanceRow) (s d : Nat)
    (marks : List (Nat × AttendanceStatus)) (hne : marks ≠ [])
    (hle : (rows.filter (attendanceKey s d)).length ≤ 1) :
    ∃ i, (markSequence rows s d marks).filter (attendanceKey s d) =
      [⟨i, s, d, (marks.getLast hne).2⟩] := by
  induction marks generalizing rows with
  | nil => exact absurd rfl hne
  | cons m t ih =>
    cases t with
    | nil =>
      rcases upsert_filter_key rows m.1 s d m.2 hle with ⟨i, hi⟩
      exact ⟨i, hi⟩
    | cons m2 t2 =>
      rcases upsert_filter_key rows m.1 s d m.2 hle with ⟨i, hi⟩
      have hle2 : ((upsertAttendance rows m.1 s d m.2).filter
          (attendanceKey s d)).length ≤ 1 := by
        rw [hi]; simp
      have hstep : markSequence rows s d (m :: m2 :: t2) =
          markSequence (upsertAttendance rows m.1 s d m.2) s d (m2 :: t2) := rfl
      rw [hstep]
      have hlast : ((m :: m2 :: t2).getLast hne) =
          ((m2 :: t2).getLast (List.cons_ne_nil m2 t2)) :=
        List.getLast_cons (List.cons_ne_nil m2 t2)
      rw [hlast]
      exact ih (upsertAttendance rows m.1 s d m.2) (List.cons_ne_nil m2 t2) hle2

/-- Witness for claim C3: mark student 2 present, then absent, on date 1
starting from an empty table; one row remains, with status absent. -/
theorem attendance_upsert_last_write_wins_witness :
    ∃ i, (markSequence [] 2 1
        [(7, AttendanceStatus.present), (8, AttendanceStatus.absent)]).filter
        (attendanceKey 2 1) = [⟨i, 2, 1, AttendanceStatus.absent⟩] :=
  attendance_upsert_last_write_wins [] 2 1
    [(7, AttendanceStatus.present), (8, AttendanceStatus.absent)]
    (by simp) (by simp)

/-- A toast notification as raised by the dashboards. -/
structure Toast where
  title : String
  description : String
  destructive : Bool
deriving DecidableEq, Repr

/-- The destructive toast every failed call raises. -/
def errorToast (d : String) : Toast := ⟨"Error", d, true⟩

/-- The toast a successful mutation raises. -/
def successToast (d : String) : Toast := ⟨"Success", d, false⟩

/-- A post as the teacher dashboard selects it. -/
structure TPost where
  id : Nat
  title : String
  content : String
  created_at : Nat
deriving DecidableEq, Repr

/-- A roster entry as the teacher dashboard selects it. -/
structure TStudent where
  id : Nat
  name : String
deriving DecidableEq, Repr

/-- An attendance record as the teacher dashboard selects it. -/
structure TAttendanceRecord where
  student_id : Nat
  date : Nat
  status : AttendanceStatus
deriving DecidableEq, Repr

/-- The teacher dashboard's local state. -/
structure TeacherState where
  posts : List TPost
  students : List TStudent
  attendance : List TAttendanceRecord
  loading : Bool
  newPostTitle : String
  newPostContent : String
deriving DecidableEq, Repr

/-- A post as the student dashboard selects it (joined author name). -/
structure SPost where
  id : Nat
  title : String
  content : String
  created_at : Nat
  authorName : String
deriving DecidableEq, Repr

/-- An attendance record as the student dashboard selects it. -/
structure SAttendance where
  id : Nat
  date : Nat
  status : AttendanceStatus
deriving DecidableEq, Repr

/-- The student dashboard's local state. -/
structure StudentState where
  posts : List SPost
  attendance : List SAttendance
  loading : Bool
deriving DecidableEq, Repr

/-- A follow-up data call a handler may issue after a successful mutation. -/
inductive DashboardCall where
  | teacherFetchPosts
  | teacherFetchAttendance
deriving DecidableEq, Repr

/-- What a response handler produces: the next component state, the toast
it raises (if any), the follow-up calls it issues, and whether it signs
the session out. -/
structure HandlerOut (σ : Type) where
  state : σ
  toast : Option Toast
  calls : List DashboardCall
  signedOut : Bool

/-- `fetchPosts` in TeacherDashboard: on error a destructive toast, on
success replace the posts list. -/
def teacherFetchPostsHandler (st : TeacherState) (res : Except Unit (List TPost)) :
    HandlerOut TeacherState :=
  match res with
  | Except.error _ => ⟨st, some (errorToast "Failed to fetch posts"), [], false⟩
  | Except.ok data => ⟨{ st with posts := data }, none, [], false⟩

/-- `fetchStudents` in TeacherDashboard. -/
def teacherFetchStudentsHandler (st : TeacherState)
    (res : Except Unit (List TStudent)) : HandlerOut TeacherState :=
  match res with
  | Except.error _ => ⟨st, some (errorToast "Failed to fetch students"), [], false⟩
  | Except.ok data => ⟨{ st with students := data }, none, [], false⟩

/-- `fetchAttendance` in TeacherDashboard; both branches clear `loading`. -/
def teacherFetchAttendanceHandler (st : TeacherState)
    (res : Except Unit (List TAttendanceRecord)) : HandlerOut TeacherState :=
  match res with
  | Except.error _ =>
      ⟨{ st with loading := false },
        some (errorToast "Failed to fetch attendance"), [], false⟩
  | Except.ok data =>
      ⟨{ st with attendance := data, loading := false }, none, [], false⟩

/-- `handleCreatePost`: on success clear the form, toast, and re-fetch
posts; on error only a destructive toast. -/
def handleCreatePostHandler (st : TeacherState) (res : Except Unit Unit) :
    HandlerOut TeacherState :=
  match res with
  | Except.error _ => ⟨st, some (errorToast "Failed to create post"), [], false⟩
  | Except.ok _ =>
      ⟨{ st with newPostTitle := "", newPostContent := "" },
        some (successToast "Post created successfully"),
        [DashboardCall.teacherFetchPosts], false⟩

/-- `handleMarkAttendance`: on success toast and re-fetch attendance; on
error only a destructive toast. -/
def handleMarkAttendanceHandler (st : TeacherState) (res : Except Unit Unit) :
    HandlerOut TeacherState :=
  match res with
  | Except.error _ => ⟨st, some (errorToast "Failed to mark attendance"), [], false⟩
  | Except.ok _ =>
      ⟨st, some (successToast "Attendance marked successfully"),
        [DashboardCall.teacherFetchAttendance], false⟩

/-- `fetchPosts` in StudentDashboard. -/
def studentFetchPostsHandler (ss : StudentState) (res : Except Unit (List SPost)) :
    HandlerOut StudentState :=
  match res with
  | Except.error _ => ⟨ss, some (errorToast "Failed to fetch posts"), [], false⟩
  | Except.ok data => ⟨{ ss with posts := data }, none, [], false⟩

/-- `fetchAttendance` in StudentDashboard; both branches clear `loading`. -/
def studentFetchAttendanceHandler (ss : StudentState)
    (res : Except Unit (List SAttendance)) : HandlerOut StudentState :=
  match res with
  | Except.error _ =>
      ⟨{ ss with loading := false },
        some (errorToast "Failed to fetch attendance"), [], false⟩
  | Except.ok data =>
      ⟨{ ss with attendance := data, loading := false }, none, [], false⟩

/-- The uniform error contract on the teacher dashboard: lists unchanged,
a destructive toast raised, no follow-up call, no sign-out. -/
def teacherErrorContract (st : TeacherState) (o : HandlerOut TeacherState) : Prop :=
  o.state.posts = st.posts ∧ o.state.students = st.students ∧
    o.state.attendance = st.attendance ∧
    (∃ t, o.toast = some t ∧ t.destructive = true) ∧
    o.calls = [] ∧ o.signedOut = false

/-- The uniform error contract on the student dashboard. -/
def studentErrorContract (ss : StudentState) (o : HandlerOut StudentState) : Prop :=
  o.state.posts = ss.posts ∧ o.state.attendance = ss.attendance ∧
    (∃ t, o.toast = some t ∧ t.destructive = true) ∧
    o.calls = [] ∧ o.signedOut = false

/-- Claim C9: every dashboard data call, when it returns an error, raises
a user-visible destructive toast, leaves the posts/students/attendance
lists unchanged, issues no retry or follow-up call, and does not end the
session. -/
theorem dashboard_error_handling_uniform (st : TeacherState) (ss : StudentState)
    (e : Unit) :
    teacherErrorContract st (teacherFetchPostsHandler st (Except.error e)) ∧
    teacherErrorContract st (teacherFetchStudentsHandler st (Except.error e)) ∧
    teacherErrorContract st (teacherFetchAttendanceHandler st (Except.error e)) ∧
    teacherErrorContract st (handleCreatePostHandler st (Except.error e)) ∧
    teacherErrorContract st (handleMarkAttendanceHandler st (Except.error e)) ∧
    studentErrorContract ss (studentFetchPostsHandler ss (Except.error e)) ∧
    studentErrorContract ss (studentFetchAttendanceHandler ss (Except.error e)) :=
  ⟨⟨rfl, rfl, rfl, ⟨_, rfl, rfl⟩, rfl, rfl⟩,
    ⟨rfl, rfl, rfl, ⟨_, rfl, rfl⟩, rfl, rfl⟩,
    ⟨rfl, rfl, rfl, ⟨_, rfl, rfl⟩, rfl, rfl⟩,
    ⟨rfl, rfl, rfl, ⟨_, rfl, rfl⟩, rfl, rfl⟩,
    ⟨rfl, rfl, rfl, ⟨_, rfl, rfl⟩, rfl, rfl⟩,
    ⟨rfl, rfl, ⟨_, rfl, rfl⟩, rfl, rfl⟩,
    ⟨rfl, rfl, ⟨_, rfl, rfl⟩, rfl, rfl⟩⟩

/-- The teacher dashboard's roster query as the component issues it:
RLS first restricts `profiles` to rows passing the SELECT policy, then
the query filters on the teacher's `class_id` and `role = 'student'`;
with a NULL `class_id` the component skips the query entirely. -/
def fetchStudentsQuery (db : DB) (uid : Nat) (callerClassId : Option Nat) :
    List ProfileRow :=
  match callerClassId with
  | none => []
  | some c =>
      (db.profiles.filter (fun p => profilesSelectPolicy uid p)).filter
        (fun p => p.class_id == some c && p.role == UserRole.student)

/-- Claim C10: for a caller whose profile has role `teacher`, the roster
query returns the empty list whatever class is asked for — the profile
SELECT policy only exposes the caller's own row, whose role is not
`student`. -/
theorem teacher_roster_query_empty (db : DB) (uid : Nat)
    (hnd : (db.profiles.map ProfileRow.id).Nodup)
    (tp : ProfileRow) (hp : lookupProfile db uid = some tp)
    (hrole : tp.role = UserRole.teacher) (cc : Option Nat) :
    fetchStudentsQuery db uid cc = [] := by
  cases cc with
  | none => rfl
  | some c =>
    rw [fetchStudentsQuery]
    rw [List.filter_eq_nil_iff]
    intro p hpmem
    rcases List.mem_filter.mp hpmem with ⟨hpl, hpsel⟩
    have hpid : p.id = uid := by
      have h := hpsel
      rw [profilesSelectPolicy] at h
      exact (eq_of_beq h).symm
    have htp_mem : tp ∈ db.profiles := List.mem_of_find?_eq_some hp
    have htp_id : tp.id = uid := by simpa using List.find?_some hp
    have hp_eq : p = tp :=
      List.inj_on_of_nodup_map hnd hpl htp_mem (by rw [hpid, htp_id])
    rw [hp_eq, hrole]
    simp

/-- Teacher 1 and student 2 share class 10: even so, the roster query for
class 10 run as teacher 1 lists nobody. -/
def dbC10 : DB :=
  { classes := [⟨10, "Class A"⟩]
    profiles := [⟨1, "T", UserRole.teacher, some 10⟩, ⟨2, "S", UserRole.student, some 10⟩]
    posts := []
    attendance := [] }

/-- Witness for claim C10 at `dbC10`. -/
theorem teacher_roster_query_empty_witness :
    fetchStudentsQuery dbC10 1 (some 10) = [] :=
  teacher_roster_query_empty dbC10 1 (by decide)
    ⟨1, "T", UserRole.teacher, some 10⟩ (by rfl) (by rfl) (some 10)
